import Mathlib

/-!
Shallow embedding of `scripts/gerar_dados_cnes.py` (the CNES data generator):
the field resolver `campo`, the constant classification tables, and the
filter-and-transform pipeline `processar_df`.

Modelling conventions:
* A pandas cell is a `Value`: `Value.null` stands for NaN / Python `None`
  (anything with `pd.notna(v) = False`), `Value.str s` for a scalar whose
  string rendering `str(v)` is `s`.
* A row is an association list from column name to cell; a DataFrame carries
  its column list plus its rows.
* Python `str.strip` is `strip` (drop whitespace from both ends of the
  character list); `str.zfill` is `zfill` (the codes in
  play are unsigned digit strings, so the sign-handling branch of `zfill`
  is irrelevant); `str.title` is `title` with ASCII case mapping;
  `str.isdigit` is `Char.isDigit`.
-/

namespace CNESGen

/-- A pandas cell: `null` is NaN/None (`pd.notna` fails), `str s` is a scalar
rendering to the string `s`. -/
inductive Value where
  | null : Value
  | str : String → Value
deriving DecidableEq, Repr

/-- One raw row: association list from (already upper-cased, see `upperDF`)
column name to cell value. -/
abbrev Row := List (String × Value)

/-- A raw table: the column list plus the rows. -/
structure DataFrame where
  cols : List String
  rows : List Row
deriving DecidableEq, Repr

/-- Cell access `row[c]`; `none` when the column is absent from the row. -/
def getCell (row : Row) (c : String) : Option Value :=
  (row.find? (fun p => p.1 == c)).map (fun p => p.2)

/-- `GESTAO_SUS = {"M", "E", "D"}`: governance codes counted as SUS-affiliated. -/
def GESTAO_SUS : List String := ["M", "E", "D"]

/-- `TP_UNIDADE_MAP`: facility-type code → (nivel, perfil). -/
def TP_UNIDADE_MAP : List (String × String × String) :=
  [ ("01", "primaria",   "Posto de Saúde"),
    ("02", "primaria",   "Centro de Saúde / UBS"),
    ("04", "secundaria", "Policlínica"),
    ("05", "terciaria",  "Hospital Geral"),
    ("06", "terciaria",  "Hospital Especializado"),
    ("07", "terciaria",  "Hospital Dia"),
    ("08", "secundaria", "Pronto-Socorro Geral"),
    ("15", "secundaria", "Unidade Mista"),
    ("20", "secundaria", "Pronto-Atendimento"),
    ("21", "secundaria", "UPA 24h"),
    ("22", "primaria",   "Consultório Isolado"),
    ("32", "primaria",   "Clínica Especializada"),
    ("36", "secundaria", "Clínica/Centro de Especialidade"),
    ("39", "secundaria", "SADT / Diagnose e Terapia"),
    ("43", "primaria",   "Farmácia"),
    ("50", "primaria",   "Vigilância em Saúde"),
    ("61", "terciaria",  "Centro de Parto Normal"),
    ("62", "terciaria",  "Hospital Dia Isolado"),
    ("64", "secundaria", "Central de Regulação"),
    ("65", "secundaria", "Pronto-Atendimento Especializado"),
    ("67", "primaria",   "Laboratório de Saúde Pública"),
    ("69", "secundaria", "Hemocentro"),
    ("70", "primaria",   "CAPS"),
    ("71", "primaria",   "CASF"),
    ("72", "primaria",   "Saúde Indígena"),
    ("73", "secundaria", "Pronto-Socorro Geral"),
    ("74", "secundaria", "Pronto-Socorro Especializado"),
    ("75", "terciaria",  "Casa de Saúde"),
    ("76", "secundaria", "CEREST"),
    ("77", "primaria",   "Atenção Domiciliar"),
    ("78", "primaria",   "Comunidade Terapêutica"),
    ("79", "primaria",   "Oficina Ortopédica"),
    ("80", "secundaria", "Laboratório de Saúde"),
    ("81", "secundaria", "Centro de Saúde Escola"),
    ("82", "secundaria", "Unidade Móvel de Urgência"),
    ("83", "primaria",   "Academia da Saúde"),
    ("84", "secundaria", "SAMU / Central de Regulação de Urgências"),
    ("85", "primaria",   "SAD - Serviço de Atenção Domiciliar"),
    ("86", "primaria",   "Unidade de Atenção Psicossocial") ]

/-- `TP_UNIDADE_MAP.get(tp, ("primaria", "Unidade de Saúde"))`. -/
def tpLookup (tp : String) : String × String :=
  match TP_UNIDADE_MAP.find? (fun e => e.1 == tp) with
  | some e => e.2
  | none => ("primaria", "Unidade de Saúde")

/-- `{"M": "Municipal", "E": "Estadual", "D": "Municipal"}.get(g, "Municipal")`. -/
def gestaoLabel (g : String) : String :=
  match [("M", "Municipal"), ("E", "Estadual"), ("D", "Municipal")].find?
      (fun p => p.1 == g) with
  | some p => p.2
  | none => "Municipal"

/-- Python `s.strip()`: drop whitespace characters from both ends. -/
def strip (s : String) : String :=
  String.mk (((s.data.dropWhile Char.isWhitespace).reverse.dropWhile
    Char.isWhitespace).reverse)

/-- `campo(row, candidatos, default)`: the first candidate column that is
present in the row with a non-null value whose trimmed rendering is not one
of `""`, `"nan"`, `"None"` yields that trimmed rendering; otherwise the
default. -/
def campo (row : Row) (candidatos : List String) (d : String) : String :=
  match candidatos with
  | [] => d
  | c :: rest =>
    match getCell row c with
    | some (Value.str s) =>
      if strip s ≠ "" ∧ strip s ≠ "nan" ∧ strip s ≠ "None" then strip s
      else campo row rest d
    | _ => campo row rest d

/-- Python `s.zfill w` on an unsigned string: left-pad with `'0'` to width
`w`; a string already at least `w` long is returned unchanged. -/
def zfill (s : String) (w : Nat) : String :=
  if w ≤ s.length then s
  else String.mk (List.replicate (w - s.length) '0') ++ s

/-- Helper of `title`: the boolean records whether the previous character was
alphabetic. -/
def titleChars : List Char → Bool → List Char
  | [], _ => []
  | c :: cs, prevAlpha =>
    (if c.isAlpha then (if prevAlpha then c.toLower else c.toUpper) else c)
      :: titleChars cs c.isAlpha

/-- Python `s.title()` (ASCII case mapping): the first letter of every
alphabetic run is upper-cased, the rest lower-cased. -/
def title (s : String) : String :=
  String.mk (titleChars s.data false)

/-- `"".join(c for c in s if c.isdigit())`. -/
def onlyDigits (s : String) : String :=
  String.mk (s.data.filter Char.isDigit)

/-- The output record (`registros.append({...})` in the source). -/
structure Registro where
  cnes : String
  nome : String
  nivel : String
  perfil : String
  gestao : String
  ibge6 : String
  logradouro : String
  bairro : String
  cep : String
  tel : String
deriving DecidableEq, Repr

/-- The per-row body of the loop in `processar_df`: `none` models `continue`
(the row is skipped), `some` the appended record. -/
def normalizeRow (row : Row) : Option Registro :=
  let cnes0 := campo row ["CO_UNIDADE", "CNES", "CO_CNES", "COUNIDADE"] ""
  if cnes0 = "" then none
  else
    let cnes := zfill cnes0 7
    let nome0 := campo row ["NO_FANTASIA", "NOFANTASIA"] ""
    let nome1 :=
      if nome0 = "" then
        campo row ["NO_RAZAO_SOCIAL", "NO_RAZAO_SOCIAL_", "NORAZAOSOCIAL"] ""
      else nome0
    if nome1 = "" then none
    else
      let nome := title nome1
      let ibge0 := campo row
        ["CO_MUNICIPIO_GESTOR", "CO_MUNICIPIO", "CO_MUN_GESTOR", "COMUNICIPIOGESTOR"] ""
      let ibge6 := if ibge0 = "" then "" else zfill ibge0 6
      let tp := zfill (campo row ["TP_UNIDADE", "TP_UNIDADE_", "TPUNIDADE"] "02") 2
      let np := tpLookup tp
      let g := campo row ["TP_GESTAO", "TP_GESTAO_", "TPGESTAO"] "M"
      let gestao := gestaoLabel g
      let logradouro := campo row ["NO_LOGRADOURO", "DS_LOGRADOURO", "NOLOGRADOURO"] ""
      let numero := campo row ["NU_ENDERECO", "DS_NUMERO", "NUENDERECO"] ""
      let endereco :=
        if numero ≠ "" then
          (if logradouro ≠ "" then logradouro ++ ", " ++ numero else numero)
        else logradouro
      let bairro := campo row ["DS_BAIRRO", "NO_BAIRRO", "DSBAIRRO"] ""
      let cep := onlyDigits (campo row ["DS_CEP", "NU_CEP", "CO_CEP", "DSCEP"] "")
      let tel := onlyDigits (campo row ["NU_TELEFONE", "DS_TELEFONE", "NUTELEFONE"] "")
      some { cnes := cnes, nome := nome, nivel := np.1, perfil := np.2,
             gestao := gestao, ibge6 := ibge6, logradouro := endereco,
             bairro := bairro, cep := cep, tel := tel }

/-- Python `c.upper()` on a column name (the source's column names are
ASCII, so ASCII case mapping is exact here). -/
def upperStr (s : String) : String :=
  String.mk (s.data.map Char.toUpper)

/-- `df.columns = [c.upper() for c in df.columns]`: upper-cases the column
names, both in the column list and in every row's index. -/
def upperDF (df : DataFrame) : DataFrame :=
  { cols := df.cols.map upperStr,
    rows := df.rows.map (fun r => r.map (fun p => (upperStr p.1, p.2))) }

/-- `pandas.Series.isin` on one cell against a list of strings: NaN is never
in the list. -/
def isinStr (v : Value) (xs : List String) : Bool :=
  match v with
  | Value.null => false
  | Value.str s => xs.contains s

/-- The governance alias actually used by filter 1: the first of
`TP_GESTAO`, `TP_GESTAO_`, `TPGESTAO` present among the columns. -/
def gestaoCol (cols : List String) : Option String :=
  ["TP_GESTAO", "TP_GESTAO_", "TPGESTAO"].find? (fun c => cols.contains c)

/-- Filter 1 (`vínculo SUS`): when a governance column exists, keep exactly
the rows with `df[col].isin(GESTAO_SUS)`; otherwise leave the table alone.
A cell absent from a row's association list behaves as NaN, as in pandas. -/
def filtroGestao (df : DataFrame) : DataFrame :=
  match gestaoCol df.cols with
  | some col =>
    { df with rows := df.rows.filter (fun r =>
        match getCell r col with
        | some v => isinStr v GESTAO_SUS
        | none => false) }
  | none => df

/-- The deactivation-date alias actually used by filter 2: the first of
`DT_DESATIVACAO`, `DT_DESATIVACAO_`, `DTDESATIVACAO` present among the
columns (the loop `break`s at the first hit). -/
def dtCol (cols : List String) : Option String :=
  ["DT_DESATIVACAO", "DT_DESATIVACAO_", "DTDESATIVACAO"].find? (fun c => cols.contains c)

/-- Filter 2 (active units): when a deactivation column exists, keep exactly
the rows with `df[col].isna() | df[col].isin(["", "0", "00000000"])`;
otherwise leave the table alone. -/
def filtroAtivo (df : DataFrame) : DataFrame :=
  match dtCol df.cols with
  | some col =>
    { df with rows := df.rows.filter (fun r =>
        match getCell r col with
        | some Value.null => true
        | some (Value.str s) => ["", "0", "00000000"].contains s
        | none => true) }
  | none => df

/-- `processar_df(df, uf)`: upper-case the columns, apply the two table-level
filters, then map the row normalizer over the surviving rows, dropping the
skipped ones.  (As in the source, the `uf` argument plays no role in the
transformation itself.) -/
def processar_df (df : DataFrame) (_uf : String) : List Registro :=
  (filtroAtivo (filtroGestao (upperDF df))).rows.filterMap normalizeRow

/-! ## Spec-side definitions

These restate, in the spec's words, the predicates the claims quantify
over; the theorems compare them with the source-side definitions above. -/

/-- Spec wording for `campo`'s acceptance test: the candidate is present,
non-null, and its trimmed value is not a null-sentinel. -/
def qualifies (row : Row) (c : String) : Bool :=
  match getCell row c with
  | some (Value.str s) => decide (strip s ≠ "" ∧ strip s ≠ "nan" ∧ strip s ≠ "None")
  | _ => false

/-- The trimmed string value a qualifying candidate contributes. -/
def valOf (row : Row) (c : String) : String :=
  match getCell row c with
  | some (Value.str s) => strip s
  | _ => ""

/-- Spec wording of the Field Resolver: the first qualifying candidate's
trimmed value, else the default. -/
def resolveSpec (row : Row) (cands : List String) (d : String) : String :=
  match cands.find? (qualifies row) with
  | some c => valOf row c
  | none => d

/-- Spec wording of the affiliation filter predicate: the row's governance
value lies in the GovernanceSet. -/
def keepGestaoSpec (col : String) (r : Row) : Bool :=
  match getCell r col with
  | some (Value.str s) => GESTAO_SUS.contains s
  | _ => false

/-- Spec wording of the active-status filter predicate: the row's
deactivation value is null-like or one of the no-deactivation sentinels. -/
def keepAtivoSpec (col : String) (r : Row) : Bool :=
  match getCell r col with
  | some (Value.str s) => ["", "0", "00000000"].contains s
  | _ => true

/-! ## Concrete data used by the claim theorems and witnesses -/

/-- The record `normalizeRow` assembles when neither required-field gate
fires, spelled out field by field. -/
def assembled (row : Row) : Registro :=
  { cnes := zfill (campo row ["CO_UNIDADE", "CNES", "CO_CNES", "COUNIDADE"] "") 7,
    nome := title (if campo row ["NO_FANTASIA", "NOFANTASIA"] "" = ""
      then campo row ["NO_RAZAO_SOCIAL", "NO_RAZAO_SOCIAL_", "NORAZAOSOCIAL"] ""
      else campo row ["NO_FANTASIA", "NOFANTASIA"] ""),
    nivel := (tpLookup (zfill (campo row ["TP_UNIDADE", "TP_UNIDADE_", "TPUNIDADE"] "02") 2)).1,
    perfil := (tpLookup (zfill (campo row ["TP_UNIDADE", "TP_UNIDADE_", "TPUNIDADE"] "02") 2)).2,
    gestao := gestaoLabel (campo row ["TP_GESTAO", "TP_GESTAO_", "TPGESTAO"] "M"),
    ibge6 := if campo row ["CO_MUNICIPIO_GESTOR", "CO_MUNICIPIO", "CO_MUN_GESTOR", "COMUNICIPIOGESTOR"] "" = ""
      then ""
      else zfill (campo row ["CO_MUNICIPIO_GESTOR", "CO_MUNICIPIO", "CO_MUN_GESTOR", "COMUNICIPIOGESTOR"] "") 6,
    logradouro := if campo row ["NU_ENDERECO", "DS_NUMERO", "NUENDERECO"] "" ≠ ""
      then (if campo row ["NO_LOGRADOURO", "DS_LOGRADOURO", "NOLOGRADOURO"] "" ≠ ""
        then campo row ["NO_LOGRADOURO", "DS_LOGRADOURO", "NOLOGRADOURO"] "" ++ ", "
          ++ campo row ["NU_ENDERECO", "DS_NUMERO", "NUENDERECO"] ""
        else campo row ["NU_ENDERECO", "DS_NUMERO", "NUENDERECO"] "")
      else campo row ["NO_LOGRADOURO", "DS_LOGRADOURO", "NOLOGRADOURO"] "",
    bairro := campo row ["DS_BAIRRO", "NO_BAIRRO", "DSBAIRRO"] "",
    cep := onlyDigits (campo row ["DS_CEP", "NU_CEP", "CO_CEP", "DSCEP"] ""),
    tel := onlyDigits (campo row ["NU_TELEFONE", "DS_TELEFONE", "NUTELEFONE"] "") }

def rowC1 : Row := [("CO_UNIDADE", Value.str "123"), ("NO_FANTASIA", Value.str "Upa Leste")]

def regC1 : Registro :=
  { cnes := "0000123", nome := "Upa Leste", nivel := "primaria",
    perfil := "Centro de Saúde / UBS", gestao := "Municipal", ibge6 := "",
    logradouro := "", bairro := "", cep := "", tel := "" }

def dfC3 : DataFrame :=
  ⟨["CO_UNIDADE", "NO_FANTASIA"],
   [[("CO_UNIDADE", Value.str "12345678"), ("NO_FANTASIA", Value.str "Hospital Central")]]⟩

def regC3 : Registro :=
  { cnes := "12345678", nome := "Hospital Central", nivel := "primaria",
    perfil := "Centro de Saúde / UBS", gestao := "Municipal", ibge6 := "",
    logradouro := "", bairro := "", cep := "", tel := "" }

def rowC3w : Row := [("CO_UNIDADE", Value.str "123"), ("NO_FANTASIA", Value.str "Posto Novo")]

def regC3w : Registro :=
  { cnes := "0000123", nome := "Posto Novo", nivel := "primaria",
    perfil := "Centro de Saúde / UBS", gestao := "Municipal", ibge6 := "",
    logradouro := "", bairro := "", cep := "", tel := "" }

def dfC4 : DataFrame :=
  ⟨["TP_GESTAO"],
   [[("TP_GESTAO", Value.str "M")], [("TP_GESTAO", Value.str "S")],
    [("TP_GESTAO", Value.str "E")]]⟩

def dfC4none : DataFrame := ⟨["CNES"], [[("CNES", Value.str "1234567")]]⟩

def dfC5 : DataFrame :=
  ⟨["DT_DESATIVACAO", "DTDESATIVACAO", "CO_UNIDADE"],
   [[("DT_DESATIVACAO", Value.str ""), ("DTDESATIVACAO", Value.str "20200101"),
     ("CO_UNIDADE", Value.str "1234567")]]⟩

def rowC7 : Row := [("CNES", Value.str "765"), ("NO_FANTASIA", Value.str "Clinica Azul")]

def regC7 : Registro :=
  { cnes := "0000765", nome := "Clinica Azul", nivel := "primaria",
    perfil := "Centro de Saúde / UBS", gestao := "Municipal", ibge6 := "",
    logradouro := "", bairro := "", cep := "", tel := "" }

def rowC8 : Row :=
  [("CO_UNIDADE", Value.str "55"), ("NO_FANTASIA", Value.str "Policlinica Centro"),
   ("NO_LOGRADOURO", Value.str "Av. Brasil"), ("NU_ENDERECO", Value.str "100")]

def regC8 : Registro :=
  { cnes := "0000055", nome := "Policlinica Centro", nivel := "primaria",
    perfil := "Centro de Saúde / UBS", gestao := "Municipal", ibge6 := "",
    logradouro := "Av. Brasil, 100", bairro := "", cep := "", tel := "" }

def rowC10 : Row :=
  [("CO_UNIDADE", Value.str "9"), ("NO_FANTASIA", Value.str "Hospital Estadual Norte"),
   ("TP_GESTAO", Value.str "E")]

def regC10 : Registro :=
  { cnes := "0000009", nome := "Hospital Estadual Norte", nivel := "primaria",
    perfil := "Centro de Saúde / UBS", gestao := "Estadual", ibge6 := "",
    logradouro := "", bairro := "", cep := "", tel := "" }

/-- A raw row whose field values are already in normalized form, one cell per
output field that passes through unchanged. -/
def rowNormalizado (cnes nome ibge cep tel : String) : Row :=
  [("CNES", Value.str cnes), ("NO_FANTASIA", Value.str nome),
   ("CO_MUNICIPIO_GESTOR", Value.str ibge), ("DS_CEP", Value.str cep),
   ("NU_TELEFONE", Value.str tel)]

/-! ## Helper lemmas -/

theorem campo_cons (row : Row) (c : String) (rest : List String) (d : String) :
    campo row (c :: rest) d =
      if qualifies row c = true then valOf row c else campo row rest d := by
  have hd : campo row (c :: rest) d =
      (match getCell row c with
       | some (Value.str s) =>
         if strip s ≠ "" ∧ strip s ≠ "nan" ∧ strip s ≠ "None" then strip s
         else campo row rest d
       | _ => campo row rest d) := rfl
  rw [hd]
  cases h : getCell row c with
  | none => simp [qualifies, valOf, h]
  | some v =>
    cases v with
    | null => simp [qualifies, valOf, h]
    | str s =>
      by_cases hc : strip s ≠ "" ∧ strip s ≠ "nan" ∧ strip s ≠ "None" <;>
        simp [qualifies, valOf, h, hc]

theorem campo_skip {row : Row} {c : String} (rest : List String) (d : String)
    (h : qualifies row c = false) :
    campo row (c :: rest) d = campo row rest d := by
  rw [campo_cons, h]
  simp

theorem campo_hit {row : Row} {c : String} (rest : List String) (d : String)
    (h : qualifies row c = true) :
    campo row (c :: rest) d = valOf row c := by
  rw [campo_cons, h]
  simp

theorem qualifies_none {row : Row} {c : String} (h : getCell row c = none) :
    qualifies row c = false := by
  unfold qualifies
  rw [h]

theorem campo_str_good {row : Row} {c s : String} (rest : List String) (d : String)
    (h : getCell row c = some (Value.str s)) (h1 : strip s = s)
    (h2 : s ≠ "") (h3 : s ≠ "nan") (h4 : s ≠ "None") :
    campo row (c :: rest) d = s := by
  have hq : qualifies row c = true := by
    unfold qualifies
    rw [h]
    simp [h1, h2, h3, h4]
  rw [campo_hit rest d hq]
  unfold valOf
  rw [h]
  exact h1

theorem qualifies_empty_str {row : Row} {c s : String}
    (h : getCell row c = some (Value.str s)) (h1 : strip s = "") :
    qualifies row c = false := by
  unfold qualifies
  rw [h]
  simp [h1]

theorem campo_str_empty {row : Row} {c s : String} (rest : List String) (d : String)
    (h : getCell row c = some (Value.str s)) (h1 : strip s = "") :
    campo row (c :: rest) d = campo row rest d :=
  campo_skip rest d (qualifies_empty_str h h1)

theorem campo_default {row : Row} {cands : List String} (d : String)
    (h : ∀ c ∈ cands, qualifies row c = false) :
    campo row cands d = d := by
  induction cands with
  | nil => rfl
  | cons c rest ih =>
    rw [campo_skip rest d (h c (List.mem_cons_self c rest))]
    exact ih (fun x hx => h x (List.mem_cons_of_mem c hx))

theorem resolveSpec_cons (row : Row) (c : String) (rest : List String) (d : String) :
    resolveSpec row (c :: rest) d =
      if qualifies row c = true then valOf row c else resolveSpec row rest d := by
  unfold resolveSpec
  cases hq : qualifies row c with
  | true => simp [List.find?_cons, hq]
  | false => simp [List.find?_cons, hq]

theorem zfill_eq_self {s : String} {w : Nat} (h : w ≤ s.length) :
    zfill s w = s := by
  unfold zfill
  rw [if_pos h]

theorem zfill_length (s : String) (w : Nat) :
    (zfill s w).length = max w s.length := by
  unfold zfill
  split
  · next h =>
    rw [Nat.max_def]
    split <;> omega
  · next h =>
    have hap : (String.mk (List.replicate (w - s.length) '0') ++ s).length
        = (w - s.length) + s.length := by
      rcases s with ⟨l⟩
      show (List.replicate (w - l.length) '0' ++ l).length = (w - l.length) + l.length
      rw [List.length_append, List.length_replicate]
    rw [hap, Nat.max_def]
    split <;> omega

theorem onlyDigits_digits (s : String) :
    ∀ c ∈ (onlyDigits s).data, c.isDigit = true := by
  intro c hc
  exact (List.mem_filter.mp hc).2

theorem onlyDigits_eq_self {s : String} (h : ∀ c ∈ s.data, c.isDigit = true) :
    onlyDigits s = s := by
  unfold onlyDigits
  rcases s with ⟨l⟩
  simp only
  rw [List.filter_eq_self.mpr h]

theorem tpLookup_nivel (tp : String) :
    (tpLookup tp).1 = "primaria" ∨ (tpLookup tp).1 = "secundaria" ∨
      (tpLookup tp).1 = "terciaria" := by
  unfold tpLookup
  cases hf : TP_UNIDADE_MAP.find? (fun e => e.1 == tp) with
  | none => simp
  | some e =>
    have he := List.mem_of_find?_eq_some hf
    have hall : ∀ x ∈ TP_UNIDADE_MAP, x.2.1 = "primaria" ∨ x.2.1 = "secundaria" ∨
        x.2.1 = "terciaria" := by decide
    simpa using hall e he

theorem gestaoLabel_eq (g : String) :
    gestaoLabel g = if g = "E" then "Estadual" else "Municipal" := by
  unfold gestaoLabel
  rcases eq_or_ne g "M" with h | hM
  · subst h; rfl
  · rcases eq_or_ne g "E" with h | hE
    · subst h; rfl
    · rcases eq_or_ne g "D" with h | hD
      · subst h; rfl
      · have hnone : [("M", "Municipal"), ("E", "Estadual"), ("D", "Municipal")].find?
            (fun p => p.1 == g) = none := by
          rw [List.find?_eq_none]
          intro x hx
          simp only [List.mem_cons, List.mem_singleton] at hx
          rcases hx with rfl | rfl | rfl | hx
          · simp only [beq_iff_eq]
            exact fun hh => hM hh.symm
          · simp only [beq_iff_eq]
            exact fun hh => hE hh.symm
          · simp only [beq_iff_eq]
            exact fun hh => hD hh.symm
          · exact absurd hx (List.not_mem_nil x)
        rw [hnone, if_neg hE]


/-- `normalizeRow` with its `let`-chain flattened into the two gates and the
assembled record. -/
theorem normalizeRow_def (row : Row) :
    normalizeRow row =
      (if campo row ["CO_UNIDADE", "CNES", "CO_CNES", "COUNIDADE"] "" = "" then none
       else if (if campo row ["NO_FANTASIA", "NOFANTASIA"] "" = ""
           then campo row ["NO_RAZAO_SOCIAL", "NO_RAZAO_SOCIAL_", "NORAZAOSOCIAL"] ""
           else campo row ["NO_FANTASIA", "NOFANTASIA"] "") = "" then none
       else some (assembled row)) := rfl

/-- The value `normalizeRow` produces, fully spelled out: any emitted record
is the record assembled field-by-field from the resolved, sanitized raw
fields. -/
theorem normalizeRow_some_eq (row : Row) (reg : Registro)
    (h : normalizeRow row = some reg) :
    reg = assembled row := by
  rw [normalizeRow_def] at h
  by_cases h1 : campo row ["CO_UNIDADE", "CNES", "CO_CNES", "COUNIDADE"] "" = ""
  · rw [if_pos h1] at h
    exact absurd h (by simp)
  · rw [if_neg h1] at h
    by_cases h2 : (if campo row ["NO_FANTASIA", "NOFANTASIA"] "" = ""
        then campo row ["NO_RAZAO_SOCIAL", "NO_RAZAO_SOCIAL_", "NORAZAOSOCIAL"] ""
        else campo row ["NO_FANTASIA", "NOFANTASIA"] "") = ""
    · rw [if_pos h2] at h
      exact absurd h (by simp)
    · rw [if_neg h2] at h
      exact (Option.some.inj h).symm

/-! ## Claims -/

/-- Claim C1: a raw row is skipped (no record, no exception — the row simply
contributes nothing) exactly when the facility code resolved over
`["CO_UNIDADE", "CNES", "CO_CNES", "COUNIDADE"]` is empty or both the
commercial-name and the legal-name aliases resolve to empty; and the
commercial name wins whenever it is non-empty. -/
theorem normalizeRow_skip_iff (row : Row) :
    (normalizeRow row = none ↔
      (campo row ["CO_UNIDADE", "CNES", "CO_CNES", "COUNIDADE"] "" = "" ∨
        (campo row ["NO_FANTASIA", "NOFANTASIA"] "" = "" ∧
         campo row ["NO_RAZAO_SOCIAL", "NO_RAZAO_SOCIAL_", "NORAZAOSOCIAL"] "" = "")))
  ∧ (∀ reg : Registro, normalizeRow row = some reg →
      campo row ["NO_FANTASIA", "NOFANTASIA"] "" ≠ "" →
      reg.nome = title (campo row ["NO_FANTASIA", "NOFANTASIA"] "")) := by
  constructor
  · rw [normalizeRow_def]
    by_cases h1 : campo row ["CO_UNIDADE", "CNES", "CO_CNES", "COUNIDADE"] "" = ""
    · simp [h1]
    · by_cases h2 : campo row ["NO_FANTASIA", "NOFANTASIA"] "" = ""
      · by_cases h3 : campo row ["NO_RAZAO_SOCIAL", "NO_RAZAO_SOCIAL_", "NORAZAOSOCIAL"] "" = ""
        · simp [h1, h2, h3]
        · simp [h1, h2, h3]
      · simp [h1, h2]
  · intro reg h hf
    rw [normalizeRow_some_eq row reg h]
    simp [assembled, hf]



/-- Witness for C1 at a concrete row carrying a facility code and a
commercial name. -/
theorem normalizeRow_skip_iff_w :
    regC1.nome = title (campo rowC1 ["NO_FANTASIA", "NOFANTASIA"] "") :=
  (normalizeRow_skip_iff rowC1).2 regC1 (by decide) (by decide)

/-- Claim C2: `campo` returns the whitespace-trimmed value of the first
candidate, in order, whose value is present and not a null-sentinel, and
the default when none qualifies (`resolveSpec` is the spec's wording of
that contract); in particular with candidates `[A, B, C]`, `A` holding an
empty value and `B` holding `"x"`, the result is `"x"` whatever `C`
holds. -/
theorem campo_first_qualifying :
    (∀ (row : Row) (cands : List String) (d : String),
        campo row cands d = resolveSpec row cands d)
  ∧ (∀ (vc : Value) (d : String),
        campo [("A", Value.str ""), ("B", Value.str "x"), ("C", vc)]
          ["A", "B", "C"] d = "x") := by
  constructor
  · intro row cands d
    induction cands with
    | nil => rfl
    | cons c rest ih => rw [campo_cons, resolveSpec_cons, ih]
  · intro vc d
    cases vc <;> rfl

/-- Claim C6 counterexample: a facility-code alias holding the string zero is
NOT treated as "field not provided" — `campo` returns `"0"` instead of
falling through to the default, and the row is kept, not skipped. -/
theorem zero_not_sentinel_cex :
    campo [("CO_UNIDADE", Value.str "0")] ["CO_UNIDADE", "CNES", "CO_CNES", "COUNIDADE"] "" = "0"
  ∧ normalizeRow [("CO_UNIDADE", Value.str "0"), ("NO_FANTASIA", Value.str "Posto Sul")]
      = some { cnes := "0000000", nome := "Posto Sul", nivel := "primaria",
               perfil := "Centro de Saúde / UBS", gestao := "Municipal", ibge6 := "",
               logradouro := "", bairro := "", cep := "", tel := "" } := by
  decide

/-- Claim C6 amended: string zeros are not null-like sentinels for field
resolution — a candidate holding `"0"` resolves to `"0"` (resolution stops
there), so a facility-code alias holding `"0"` yields a non-empty code and
the row is not skipped for lack of a code. -/
theorem zero_value_resolved :
    (∀ (row : Row) (c : String) (rest : List String) (d : String),
        getCell row c = some (Value.str "0") → campo row (c :: rest) d = "0")
  ∧ (∀ row : Row, getCell row "CO_UNIDADE" = some (Value.str "0") →
        campo row ["CO_UNIDADE", "CNES", "CO_CNES", "COUNIDADE"] "" ≠ "") := by
  constructor
  · intro row c rest d h
    exact campo_str_good rest d h rfl (by decide) (by decide) (by decide)
  · intro row h
    have hc := campo_str_good ["CNES", "CO_CNES", "COUNIDADE"] "" h rfl
      (by decide) (by decide) (by decide)
    rw [hc]
    decide

/-- Witness for the amended C6 at a concrete single-column row. -/
theorem zero_value_resolved_w :
    campo [("X", Value.str "0")] ["X"] "" = "0" :=
  zero_value_resolved.1 [("X", Value.str "0")] "X" [] "" rfl



/-- Claim C3 counterexample: the pipeline emits a record whose id is NOT
exactly 7 characters — a facility code longer than 7 characters is kept
unchanged by `zfill`, never truncated. -/
theorem registro_invariants_cex :
    processar_df dfC3 "RJ" = [regC3] ∧ regC3.cnes.length ≠ 7 := by
  decide

/-- Claim C3 amended: for every emitted record the id length is
`max 7 (length of the resolved code)` — exactly 7 whenever the resolved
code has at most 7 characters, shorter codes being left-padded with zeros;
the region code is empty or of length `max 6 (resolved length)`; the tier
and governance label always lie in their enumerations; postal code and
phone are digit-only. -/
theorem registro_invariants_amended (row : Row) (reg : Registro)
    (h : normalizeRow row = some reg) :
    reg.cnes.length = max 7 (campo row ["CO_UNIDADE", "CNES", "CO_CNES", "COUNIDADE"] "").length
  ∧ (reg.ibge6 = "" ∨ reg.ibge6.length
      = max 6 (campo row ["CO_MUNICIPIO_GESTOR", "CO_MUNICIPIO", "CO_MUN_GESTOR", "COMUNICIPIOGESTOR"] "").length)
  ∧ (reg.nivel = "primaria" ∨ reg.nivel = "secundaria" ∨ reg.nivel = "terciaria")
  ∧ (reg.gestao = "Municipal" ∨ reg.gestao = "Estadual")
  ∧ (∀ c ∈ reg.cep.data, c.isDigit = true)
  ∧ (∀ c ∈ reg.tel.data, c.isDigit = true) := by
  rw [normalizeRow_some_eq row reg h]
  simp only [assembled]
  refine ⟨zfill_length _ 7, ?_, tpLookup_nivel _, ?_, onlyDigits_digits _, onlyDigits_digits _⟩
  · by_cases hi : campo row
        ["CO_MUNICIPIO_GESTOR", "CO_MUNICIPIO", "CO_MUN_GESTOR", "COMUNICIPIOGESTOR"] "" = ""
    · exact Or.inl (by rw [if_pos hi])
    · refine Or.inr ?_
      rw [if_neg hi]
      exact zfill_length _ 6
  · rw [gestaoLabel_eq]
    split
    · exact Or.inr rfl
    · exact Or.inl rfl



/-- Witness for the amended C3 at a concrete row with a 3-character code. -/
theorem registro_invariants_amended_w :
    regC3w.cnes.length
      = max 7 (campo rowC3w ["CO_UNIDADE", "CNES", "CO_CNES", "COUNIDADE"] "").length :=
  (registro_invariants_amended rowC3w regC3w (by decide)).1



/-- Claim C4: when a governance column exists under a known alias, exactly
the rows whose governance value lies in `GESTAO_SUS = {"M", "E", "D"}` are
retained; with no such column the table passes through unfiltered; and the
`{"M", "S", "E"}` example keeps exactly the `"M"` and `"E"` rows. -/
theorem gestao_filter_spec :
    (∀ (df : DataFrame) (col : String), gestaoCol df.cols = some col →
        (filtroGestao df).rows = df.rows.filter (keepGestaoSpec col))
  ∧ (∀ df : DataFrame, gestaoCol df.cols = none → filtroGestao df = df)
  ∧ (filtroGestao dfC4).rows
      = [[("TP_GESTAO", Value.str "M")], [("TP_GESTAO", Value.str "E")]] := by
  refine ⟨?_, ?_, ?_⟩
  · intro df col h
    unfold filtroGestao
    rw [h]
    show df.rows.filter (fun r =>
        match getCell r col with
        | some v => isinStr v GESTAO_SUS
        | none => false) = df.rows.filter (keepGestaoSpec col)
    congr 1
    funext r
    unfold keepGestaoSpec isinStr
    cases hg : getCell r col with
    | none => rfl
    | some v => cases v <;> rfl
  · intro df h
    unfold filtroGestao
    rw [h]
  · decide

/-- Witness for C4: the filter characterization applied to the concrete
three-row table, and pass-through applied to a table with no governance
column. -/
theorem gestao_filter_spec_w :
    (filtroGestao dfC4).rows = dfC4.rows.filter (keepGestaoSpec "TP_GESTAO")
  ∧ filtroGestao dfC4none = dfC4none :=
  ⟨gestao_filter_spec.1 dfC4 "TP_GESTAO" rfl, gestao_filter_spec.2.1 dfC4none rfl⟩


/-- Claim C5: when a deactivation-date column exists under a known alias,
exactly the rows whose value there is null or one of `""`, `"0"`,
`"00000000"` are retained; only the first alias in the fixed order is used
(`DT_DESATIVACAO` wins whenever present, as the concrete two-column table
shows); tables with no such column pass all rows through. -/
theorem ativo_filter_spec :
    (∀ (df : DataFrame) (col : String), dtCol df.cols = some col →
        (filtroAtivo df).rows = df.rows.filter (keepAtivoSpec col))
  ∧ (∀ df : DataFrame, dtCol df.cols = none → filtroAtivo df = df)
  ∧ (∀ cols : List String, cols.contains "DT_DESATIVACAO" = true →
        dtCol cols = some "DT_DESATIVACAO")
  ∧ (filtroAtivo dfC5).rows = dfC5.rows := by
  refine ⟨?_, ?_, ?_, ?_⟩
  · intro df col h
    unfold filtroAtivo
    rw [h]
    show df.rows.filter (fun r =>
        match getCell r col with
        | some Value.null => true
        | some (Value.str s) => ["", "0", "00000000"].contains s
        | none => true) = df.rows.filter (keepAtivoSpec col)
    congr 1
    funext r
    unfold keepAtivoSpec
    cases hg : getCell r col with
    | none => rfl
    | some v => cases v <;> rfl
  · intro df h
    unfold filtroAtivo
    rw [h]
  · intro cols h
    unfold dtCol
    exact List.find?_cons_of_pos _ h
  · decide

/-- Witness for C5: the filter characterization applied to the concrete
two-deactivation-column table, and first-alias selection on its columns. -/
theorem ativo_filter_spec_w :
    (filtroAtivo dfC5).rows = dfC5.rows.filter (keepAtivoSpec "DT_DESATIVACAO")
  ∧ dtCol dfC5.cols = some "DT_DESATIVACAO" :=
  ⟨ativo_filter_spec.1 dfC5 "DT_DESATIVACAO" rfl,
   ativo_filter_spec.2.2.1 dfC5.cols rfl⟩

theorem tpLookup_miss {tp : String}
    (h : TP_UNIDADE_MAP.find? (fun e => e.1 == tp) = none) :
    tpLookup tp = ("primaria", "Unidade de Saúde") := by
  unfold tpLookup
  rw [h]

/-- Claim C7: the resolved facility-type code is left-padded to 2 characters
and looked up in `TP_UNIDADE_MAP`; any code missing from the table yields
exactly the generic primary entry `("primaria", "Unidade de Saúde")`, and a
row with no facility-type field at all gets the default code `"02"`,
classified `("primaria", "Centro de Saúde / UBS")`. -/
theorem tp_classification (row : Row) (reg : Registro)
    (h : normalizeRow row = some reg) :
    ((TP_UNIDADE_MAP.find? (fun e =>
        e.1 == zfill (campo row ["TP_UNIDADE", "TP_UNIDADE_", "TPUNIDADE"] "02") 2)).isNone = true →
      reg.nivel = "primaria" ∧ reg.perfil = "Unidade de Saúde")
  ∧ ((∀ c ∈ ["TP_UNIDADE", "TP_UNIDADE_", "TPUNIDADE"], getCell row c = none) →
      reg.nivel = "primaria" ∧ reg.perfil = "Centro de Saúde / UBS") := by
  rw [normalizeRow_some_eq row reg h]
  simp only [assembled]
  constructor
  · intro hn
    rw [Option.isNone_iff_eq_none] at hn
    rw [tpLookup_miss hn]
    exact ⟨rfl, rfl⟩
  · intro habs
    have hc : campo row ["TP_UNIDADE", "TP_UNIDADE_", "TPUNIDADE"] "02" = "02" :=
      campo_default "02" (fun c hcm => qualifies_none (habs c hcm))
    rw [hc]
    exact ⟨rfl, rfl⟩



/-- Witness for C7 at a concrete row with no facility-type column. -/
theorem tp_classification_w :
    regC7.nivel = "primaria" ∧ regC7.perfil = "Centro de Saúde / UBS" :=
  (tp_classification rowC7 regC7 (by decide)).2 (by decide)

/-- Claim C8: the output address is `"{street}, {number}"` when both resolved
parts are non-empty, the number alone when only the number is non-empty, the
street alone when only the street is non-empty, and empty when both are. -/
theorem endereco_composition (row : Row) (reg : Registro)
    (h : normalizeRow row = some reg) :
    reg.logradouro =
      (if campo row ["NO_LOGRADOURO", "DS_LOGRADOURO", "NOLOGRADOURO"] "" ≠ ""
          ∧ campo row ["NU_ENDERECO", "DS_NUMERO", "NUENDERECO"] "" ≠ ""
       then campo row ["NO_LOGRADOURO", "DS_LOGRADOURO", "NOLOGRADOURO"] "" ++ ", "
            ++ campo row ["NU_ENDERECO", "DS_NUMERO", "NUENDERECO"] ""
       else if campo row ["NU_ENDERECO", "DS_NUMERO", "NUENDERECO"] "" ≠ ""
       then campo row ["NU_ENDERECO", "DS_NUMERO", "NUENDERECO"] ""
       else if campo row ["NO_LOGRADOURO", "DS_LOGRADOURO", "NOLOGRADOURO"] "" ≠ ""
       then campo row ["NO_LOGRADOURO", "DS_LOGRADOURO", "NOLOGRADOURO"] ""
       else "") := by
  rw [normalizeRow_some_eq row reg h]
  simp only [assembled]
  by_cases hn : campo row ["NU_ENDERECO", "DS_NUMERO", "NUENDERECO"] "" = "" <;>
    by_cases hl : campo row ["NO_LOGRADOURO", "DS_LOGRADOURO", "NOLOGRADOURO"] "" = "" <;>
    simp [hn, hl]



/-- Witness for C8 at a concrete row with both street and number. -/
theorem endereco_composition_w : regC8.logradouro = "Av. Brasil, 100" := by
  rw [endereco_composition rowC8 regC8 (by decide)]
  decide

/-- Claim C10: the governance label is `"Estadual"` exactly when the resolved
governance code is `"E"`; the codes `"M"` and `"D"`, any unmapped code, and
an absent governance column (default `"M"`) all yield `"Municipal"`; in
particular `"D"` is in the SUS-affiliation set yet labeled `"Municipal"`. -/
theorem gestao_label_map (row : Row) (reg : Registro)
    (h : normalizeRow row = some reg) :
    (reg.gestao = "Estadual" ↔ campo row ["TP_GESTAO", "TP_GESTAO_", "TPGESTAO"] "M" = "E")
  ∧ (campo row ["TP_GESTAO", "TP_GESTAO_", "TPGESTAO"] "M" = "D" → reg.gestao = "Municipal")
  ∧ ((∀ c ∈ ["TP_GESTAO", "TP_GESTAO_", "TPGESTAO"], getCell row c = none) →
      reg.gestao = "Municipal")
  ∧ (reg.gestao = "Municipal" ∨ reg.gestao = "Estadual")
  ∧ GESTAO_SUS.contains "D" = true := by
  rw [normalizeRow_some_eq row reg h]
  simp only [assembled]
  rw [gestaoLabel_eq]
  refine ⟨?_, ?_, ?_, ?_, rfl⟩
  · by_cases he : campo row ["TP_GESTAO", "TP_GESTAO_", "TPGESTAO"] "M" = "E" <;> simp [he]
  · intro hd
    simp [hd]
  · intro habs
    have hc : campo row ["TP_GESTAO", "TP_GESTAO_", "TPGESTAO"] "M" = "M" :=
      campo_default "M" (fun c hcm => qualifies_none (habs c hcm))
    simp [hc]
  · by_cases he : campo row ["TP_GESTAO", "TP_GESTAO_", "TPGESTAO"] "M" = "E" <;> simp [he]



/-- Witness for C10 at a concrete state-managed row. -/
theorem gestao_label_map_w : regC10.gestao = "Estadual" :=
  (gestao_label_map rowC10 regC10 (by decide)).1.mpr (by decide)


/-- Claim C9: processing is deterministic (equal inputs give identical
outputs), and normalizing a raw row whose values are already normalized —
trimmed 7-character code, trimmed title-cased name, trimmed empty-or-6
region code, trimmed digit-only postal code and phone — re-emits exactly
those values: a second normalization changes nothing. -/
theorem idempotent_normalization :
    (∀ (df1 df2 : DataFrame) (uf1 uf2 : String), df1 = df2 → uf1 = uf2 →
        processar_df df1 uf1 = processar_df df2 uf2)
  ∧ (∀ cnes nome ibge cep tel : String,
      strip cnes = cnes → cnes.length = 7 →
      strip nome = nome → nome ≠ "" → nome ≠ "nan" → nome ≠ "None" → title nome = nome →
      strip ibge = ibge → (ibge = "" ∨ ibge.length = 6) →
      strip cep = cep → (∀ c ∈ cep.data, c.isDigit = true) → cep ≠ "nan" → cep ≠ "None" →
      strip tel = tel → (∀ c ∈ tel.data, c.isDigit = true) → tel ≠ "nan" → tel ≠ "None" →
      normalizeRow (rowNormalizado cnes nome ibge cep tel)
        = some { cnes := cnes, nome := nome, nivel := "primaria",
                 perfil := "Centro de Saúde / UBS", gestao := "Municipal",
                 ibge6 := ibge, logradouro := "", bairro := "",
                 cep := cep, tel := tel }) := by
  constructor
  · intro df1 df2 uf1 uf2 h1 h2
    rw [h1, h2]
  · intro cnes nome ibge cep tel hc1 hc2 hn1 hn2 hn3 hn4 hn5 hi1 hi2 hp1 hp2 hp3 hp4
      ht1 ht2 ht3 ht4
    have hcne : cnes ≠ "" := by
      intro e
      rw [e] at hc2
      exact absurd hc2 (by decide)
    have hcnan : cnes ≠ "nan" := by
      intro e
      rw [e] at hc2
      exact absurd hc2 (by decide)
    have hcNone : cnes ≠ "None" := by
      intro e
      rw [e] at hc2
      exact absurd hc2 (by decide)
    have g2 : getCell (rowNormalizado cnes nome ibge cep tel) "CNES"
        = some (Value.str cnes) := rfl
    have g3 : getCell (rowNormalizado cnes nome ibge cep tel) "NO_FANTASIA"
        = some (Value.str nome) := rfl
    have g4 : getCell (rowNormalizado cnes nome ibge cep tel) "CO_MUNICIPIO_GESTOR"
        = some (Value.str ibge) := rfl
    have g5 : getCell (rowNormalizado cnes nome ibge cep tel) "DS_CEP"
        = some (Value.str cep) := rfl
    have g6 : getCell (rowNormalizado cnes nome ibge cep tel) "NU_TELEFONE"
        = some (Value.str tel) := rfl
    have gabs : ∀ c : String, ("CNES" == c) = false → ("NO_FANTASIA" == c) = false →
        ("CO_MUNICIPIO_GESTOR" == c) = false → ("DS_CEP" == c) = false →
        ("NU_TELEFONE" == c) = false →
        getCell (rowNormalizado cnes nome ibge cep tel) c = none := by
      intro c b1 b2 b3 b4 b5
      unfold rowNormalizado getCell
      simp only [List.find?, b1, b2, b3, b4, b5, Option.map_none']
    have e_cnes : campo (rowNormalizado cnes nome ibge cep tel)
        ["CO_UNIDADE", "CNES", "CO_CNES", "COUNIDADE"] "" = cnes := by
      rw [campo_skip _ _ (qualifies_none (gabs "CO_UNIDADE" rfl rfl rfl rfl rfl))]
      exact campo_str_good _ _ g2 hc1 hcne hcnan hcNone
    have e_nome : campo (rowNormalizado cnes nome ibge cep tel)
        ["NO_FANTASIA", "NOFANTASIA"] "" = nome :=
      campo_str_good _ _ g3 hn1 hn2 hn3 hn4
    have e_raz : campo (rowNormalizado cnes nome ibge cep tel)
        ["NO_RAZAO_SOCIAL", "NO_RAZAO_SOCIAL_", "NORAZAOSOCIAL"] "" = "" := by
      apply campo_default
      intro c hcm
      simp only [List.mem_cons, List.not_mem_nil, or_false] at hcm
      rcases hcm with rfl | rfl | rfl
      · exact qualifies_none (gabs _ rfl rfl rfl rfl rfl)
      · exact qualifies_none (gabs _ rfl rfl rfl rfl rfl)
      · exact qualifies_none (gabs _ rfl rfl rfl rfl rfl)
    have e_tp : campo (rowNormalizado cnes nome ibge cep tel)
        ["TP_UNIDADE", "TP_UNIDADE_", "TPUNIDADE"] "02" = "02" := by
      apply campo_default
      intro c hcm
      simp only [List.mem_cons, List.not_mem_nil, or_false] at hcm
      rcases hcm with rfl | rfl | rfl
      · exact qualifies_none (gabs _ rfl rfl rfl rfl rfl)
      · exact qualifies_none (gabs _ rfl rfl rfl rfl rfl)
      · exact qualifies_none (gabs _ rfl rfl rfl rfl rfl)
    have e_g : campo (rowNormalizado cnes nome ibge cep tel)
        ["TP_GESTAO", "TP_GESTAO_", "TPGESTAO"] "M" = "M" := by
      apply campo_default
      intro c hcm
      simp only [List.mem_cons, List.not_mem_nil, or_false] at hcm
      rcases hcm with rfl | rfl | rfl
      · exact qualifies_none (gabs _ rfl rfl rfl rfl rfl)
      · exact qualifies_none (gabs _ rfl rfl rfl rfl rfl)
      · exact qualifies_none (gabs _ rfl rfl rfl rfl rfl)
    have e_log : campo (rowNormalizado cnes nome ibge cep tel)
        ["NO_LOGRADOURO", "DS_LOGRADOURO", "NOLOGRADOURO"] "" = "" := by
      apply campo_default
      intro c hcm
      simp only [List.mem_cons, List.not_mem_nil, or_false] at hcm
      rcases hcm with rfl | rfl | rfl
      · exact qualifies_none (gabs _ rfl rfl rfl rfl rfl)
      · exact qualifies_none (gabs _ rfl rfl rfl rfl rfl)
      · exact qualifies_none (gabs _ rfl rfl rfl rfl rfl)
    have e_num : campo (rowNormalizado cnes nome ibge cep tel)
        ["NU_ENDERECO", "DS_NUMERO", "NUENDERECO"] "" = "" := by
      apply campo_default
      intro c hcm
      simp only [List.mem_cons, List.not_mem_nil, or_false] at hcm
      rcases hcm with rfl | rfl | rfl
      · exact qualifies_none (gabs _ rfl rfl rfl rfl rfl)
      · exact qualifies_none (gabs _ rfl rfl rfl rfl rfl)
      · exact qualifies_none (gabs _ rfl rfl rfl rfl rfl)
    have e_bairro : campo (rowNormalizado cnes nome ibge cep tel)
        ["DS_BAIRRO", "NO_BAIRRO", "DSBAIRRO"] "" = "" := by
      apply campo_default
      intro c hcm
      simp only [List.mem_cons, List.not_mem_nil, or_false] at hcm
      rcases hcm with rfl | rfl | rfl
      · exact qualifies_none (gabs _ rfl rfl rfl rfl rfl)
      · exact qualifies_none (gabs _ rfl rfl rfl rfl rfl)
      · exact qualifies_none (gabs _ rfl rfl rfl rfl rfl)
    have e_ibge : campo (rowNormalizado cnes nome ibge cep tel)
        ["CO_MUNICIPIO_GESTOR", "CO_MUNICIPIO", "CO_MUN_GESTOR", "COMUNICIPIOGESTOR"] ""
        = ibge := by
      rcases hi2 with hib | hib
      · subst hib
        apply campo_default
        intro c hcm
        simp only [List.mem_cons, List.not_mem_nil, or_false] at hcm
        rcases hcm with rfl | rfl | rfl | rfl
        · exact qualifies_empty_str g4 hi1
        · exact qualifies_none (gabs _ rfl rfl rfl rfl rfl)
        · exact qualifies_none (gabs _ rfl rfl rfl rfl rfl)
        · exact qualifies_none (gabs _ rfl rfl rfl rfl rfl)
      · have hine : ibge ≠ "" := fun e => absurd (e ▸ hib) (by decide)
        have hinan : ibge ≠ "nan" := fun e => absurd (e ▸ hib) (by decide)
        have hiNone : ibge ≠ "None" := fun e => absurd (e ▸ hib) (by decide)
        exact campo_str_good _ _ g4 hi1 hine hinan hiNone
    have e_cep : campo (rowNormalizado cnes nome ibge cep tel)
        ["DS_CEP", "NU_CEP", "CO_CEP", "DSCEP"] "" = cep := by
      by_cases hcep : cep = ""
      · subst hcep
        apply campo_default
        intro c hcm
        simp only [List.mem_cons, List.not_mem_nil, or_false] at hcm
        rcases hcm with rfl | rfl | rfl | rfl
        · exact qualifies_empty_str g5 hp1
        · exact qualifies_none (gabs _ rfl rfl rfl rfl rfl)
        · exact qualifies_none (gabs _ rfl rfl rfl rfl rfl)
        · exact qualifies_none (gabs _ rfl rfl rfl rfl rfl)
      · exact campo_str_good _ _ g5 hp1 hcep hp3 hp4
    have e_tel : campo (rowNormalizado cnes nome ibge cep tel)
        ["NU_TELEFONE", "DS_TELEFONE", "NUTELEFONE"] "" = tel := by
      by_cases htel : tel = ""
      · subst htel
        apply campo_default
        intro c hcm
        simp only [List.mem_cons, List.not_mem_nil, or_false] at hcm
        rcases hcm with rfl | rfl | rfl
        · exact qualifies_empty_str g6 ht1
        · exact qualifies_none (gabs _ rfl rfl rfl rfl rfl)
        · exact qualifies_none (gabs _ rfl rfl rfl rfl rfl)
      · exact campo_str_good _ _ g6 ht1 htel ht3 ht4
    rw [normalizeRow_def, e_cnes, e_nome, e_raz]
    rw [if_neg hcne, if_neg hn2, if_neg hn2]
    refine congrArg some ?_
    simp only [assembled]
    rw [e_cnes, e_nome, e_raz, e_tp, e_g, e_ibge, e_log, e_num, e_bairro, e_cep, e_tel]
    rw [if_neg hn2, hn5]
    rw [zfill_eq_self hc2.ge]
    rw [onlyDigits_eq_self hp2, onlyDigits_eq_self ht2]
    rcases hi2 with hib | hib
    · rw [hib]
      rfl
    · have hine : ibge ≠ "" := fun e => absurd (e ▸ hib) (by decide)
      rw [if_neg hine, zfill_eq_self hib.ge]
      rfl

/-- Witness for C9: a fully-normalized concrete row is re-emitted
verbatim. -/
theorem idempotent_normalization_w :
    normalizeRow (rowNormalizado "1234567" "Hospital Geral" "330455" "20000000" "2133333333")
      = some { cnes := "1234567", nome := "Hospital Geral", nivel := "primaria",
               perfil := "Centro de Saúde / UBS", gestao := "Municipal",
               ibge6 := "330455", logradouro := "", bairro := "",
               cep := "20000000", tel := "2133333333" } :=
  idempotent_normalization.2 "1234567" "Hospital Geral" "330455" "20000000" "2133333333"
    (by decide) (by decide) (by decide) (by decide) (by decide) (by decide) (by decide)
    (by decide) (by decide) (by decide) (by decide) (by decide) (by decide)
    (by decide) (by decide) (by decide) (by decide)

end CNESGen
